import Mathlib

/-!
Shallow embedding of the orchestration pipeline in `src/orchestrator/main.py`
(AI code-review assistant).  External effects (filesystem, subprocesses,
HTTP requests to the local model service, report writes) are modelled by an
explicit `World` record of oracles and by an `Effect` trace; wall-clock
durations are abstracted away (only the fact that a timing record is
appended, identified by its label, is modelled).
-/

set_option linter.unusedVariables false

namespace Orchestrator

/-- Errors that Python exceptions of the source can raise through the
pipeline: `requests` transport failures, `json.JSONDecodeError` from
`json.load`, and `AttributeError` from calling `.strip()` on `None`. -/
inductive RunError where
  | connectionError
  | jsonDecodeError
  | attributeError
deriving DecidableEq

/-- Raw Analyzer-A (ruff) location record: `{"row": ...}` nested under a
message (`main.py` line 434). -/
structure RuffLocation where
  row : Option Nat
deriving DecidableEq

/-- Raw Analyzer-A (ruff) message record: `{"message": ..., "location": {...}}`
(`main.py` lines 429-435). A missing key is `none`. -/
structure RuffMessage where
  message : Option String
  location : Option RuffLocation
deriving DecidableEq

/-- Raw Analyzer-A (ruff) top-level item: `{"filename": ..., "messages": [...]}`
(`main.py` lines 428-435). -/
structure RuffItem where
  filename : Option String
  messages : List RuffMessage
deriving DecidableEq

/-- Raw Analyzer-B (bandit) result record:
`{"filename": ..., "issue_text": ..., "line_number": ...}`
(`main.py` lines 436-442). -/
structure BanditIssue where
  filename : Option String
  issue_text : Option String
  line_number : Option Nat
deriving DecidableEq

/-- The common normalized finding shape built in STEP 3 of `main`
(`main.py` lines 427-451): `{"tool", "filename", "message", "line"}`.
The normalization always stores every key; a missing source field is
stored as Python `None`, modelled as `none`. -/
structure Finding where
  tool : String
  filename : Option String
  message : Option String
  line : Option Nat
deriving DecidableEq

/-- Normalization of one ruff message (`main.py` lines 430-435):
`filename` is `item.get("filename")`, `message` is `msg.get("message")`,
`line` is `msg.get("location", {}).get("row")` - the default `{}` has no
`row`, so a missing location yields `none`. -/
def ruffFindingOf (item : RuffItem) (msg : RuffMessage) : Finding :=
  { tool := "ruff"
    filename := item.filename
    message := msg.message
    line := (msg.location.getD { row := none }).row }

/-- Normalization of one bandit issue (`main.py` lines 437-442). -/
def banditFindingOf (issue : BanditIssue) : Finding :=
  { tool := "bandit"
    filename := issue.filename
    message := issue.issue_text
    line := issue.line_number }

/-- Normalization of one architecture note (`main.py` lines 445-451):
fixed filename `"project"` and line `0`. -/
def archFindingOf (note : String) : Finding :=
  { tool := "architecture"
    filename := some "project"
    message := some note
    line := some 0 }

/-- All ruff findings of a run, one block per raw item, in item order. -/
def normalizeRuff (items : List RuffItem) : List Finding :=
  (items.map fun item => item.messages.map (ruffFindingOf item)).flatten

/-- All bandit findings of a run, in result-list order. -/
def normalizeBandit (issues : List BanditIssue) : List Finding :=
  issues.map banditFindingOf

/-- All architecture findings of a run, in note order. -/
def normalizeArch (notes : List String) : List Finding :=
  notes.map archFindingOf

/-- STEP 3 of `main` (`main.py` lines 426-451): the aggregation loops, kept
in their source shape - a running `findings` list extended first by the
nested ruff loops, then by the bandit loop, then by the architecture loop. -/
def gatherFindings (ruffItems : List RuffItem) (banditIssues : List BanditIssue)
    (archNotes : List String) : List Finding :=
  let f1 := ruffItems.foldl (fun acc item => acc ++ item.messages.map (ruffFindingOf item)) []
  let f2 := banditIssues.foldl (fun acc issue => acc ++ [banditFindingOf issue]) f1
  archNotes.foldl (fun acc note => acc ++ [archFindingOf note]) f2

/-- The fixed directory list of `check_architecture_structure`
(`main.py` line 72). -/
def required_dirs : List String := ["orchestrator", "sample", "reports"]

/-- `check_architecture_structure` (`main.py` lines 69-76), over an explicit
filesystem-existence oracle.  Note the missing-directory branch returns a
single combined note, not one note per missing directory. -/
def check_architecture_structure (fsEx : String → Bool) : List String :=
  let missing := required_dirs.filter fun d => !fsEx d
  if missing ≠ [] then
    ["Missing expected module directories: " ++ String.intercalate ", " missing]
  else
    ["Project structure follows modular architecture."]

theorem normalizeRuff_cons (x : RuffItem) (xs : List RuffItem) :
    normalizeRuff (x :: xs) = x.messages.map (ruffFindingOf x) ++ normalizeRuff xs := by
  simp [normalizeRuff]

theorem foldl_ruff (items : List RuffItem) :
    ∀ acc : List Finding,
      items.foldl (fun acc item => acc ++ item.messages.map (ruffFindingOf item)) acc
        = acc ++ normalizeRuff items := by
  induction items with
  | nil => intro acc; simp [normalizeRuff]
  | cons x xs ih =>
      intro acc
      rw [List.foldl_cons, ih, normalizeRuff_cons, List.append_assoc]

theorem foldl_bandit (issues : List BanditIssue) :
    ∀ acc : List Finding,
      issues.foldl (fun acc issue => acc ++ [banditFindingOf issue]) acc
        = acc ++ normalizeBandit issues := by
  induction issues with
  | nil => intro acc; simp [normalizeBandit]
  | cons x xs ih =>
      intro acc
      rw [List.foldl_cons, ih]
      simp [normalizeBandit]

theorem foldl_arch (notes : List String) :
    ∀ acc : List Finding,
      notes.foldl (fun acc note => acc ++ [archFindingOf note]) acc
        = acc ++ normalizeArch notes := by
  induction notes with
  | nil => intro acc; simp [normalizeArch]
  | cons x xs ih =>
      intro acc
      rw [List.foldl_cons, ih]
      simp [normalizeArch]

/-- The source aggregation loops decompose into the three ordered segments. -/
theorem gatherFindings_eq (ruffItems : List RuffItem) (banditIssues : List BanditIssue)
    (archNotes : List String) :
    gatherFindings ruffItems banditIssues archNotes
      = normalizeRuff ruffItems ++ normalizeBandit banditIssues ++ normalizeArch archNotes := by
  show (archNotes.foldl (fun acc note => acc ++ [archFindingOf note])
      (banditIssues.foldl (fun acc issue => acc ++ [banditFindingOf issue])
        (ruffItems.foldl (fun acc item => acc ++ item.messages.map (ruffFindingOf item)) [])))
    = normalizeRuff ruffItems ++ normalizeBandit banditIssues ++ normalizeArch archNotes
  rw [foldl_ruff, foldl_bandit, foldl_arch]
  simp

/-- Both branches of the architecture check return a singleton note list. -/
theorem check_architecture_structure_length (fsEx : String → Bool) :
    (check_architecture_structure fsEx).length = 1 := by
  show (if (required_dirs.filter fun d => !fsEx d) ≠ [] then
      ["Missing expected module directories: "
        ++ String.intercalate ", " (required_dirs.filter fun d => !fsEx d)]
    else ["Project structure follows modular architecture."]).length = 1
  split <;> rfl

/-- Parsed JSON body of a model-service response, restricted to the field
path the source reads: `data.get("message", {}).get("content", "")`. -/
structure ChatMessageBody where
  content : Option String
deriving DecidableEq

/-- Top-level parsed response body of `POST /api/chat`. -/
structure ChatBody where
  message : Option ChatMessageBody
deriving DecidableEq

/-- Outcome of one `requests.post` call: either a raised transport
exception (connection error, timeout) or an HTTP response with a status
code and a parsed body. -/
inductive HttpOutcome where
  | transportFailure
  | response (status : Nat) (body : ChatBody)
deriving DecidableEq

/-- Python `str.strip()`: drop leading and trailing whitespace.  Defined
structurally over the character list (so the kernel can evaluate it; the
built-in byte-position trim is defined by well-founded recursion). -/
def pyStrip (s : String) : String :=
  String.mk (((s.data.dropWhile Char.isWhitespace).reverse.dropWhile Char.isWhitespace).reverse)

/-- `data.get("message", {}).get("content", "").strip()` as the source
extracts model output (e.g. `main.py` line 128). -/
def extractContent (b : ChatBody) : String :=
  pyStrip (((b.message.getD { content := none }).content).getD "")

/-- Observable side effects of a pipeline run.  Report appends carry the
text written where it is fully determined by modelled data; the two
summary sections whose bodies interpolate wall-clock durations carry just
their fixed heading. -/
inductive Effect where
  | runTool (tool dir : String)
  | perf (label : String)
  | httpPost (kind : String)
  | trackAI (name : String)
  | writePatch (path : String)
  | overwriteReport (text : String)
  | appendReport (text : String)
deriving DecidableEq

/-- The fixed sentinel of `analyze_with_llm` for a non-success status
(`main.py` line 124). -/
def narrativeErrorSentinel : String := "Error: LLM could not generate a response."

/-- `analyze_with_llm` (`main.py` lines 82-128).  The HTTP post is NOT
wrapped in try/except, so a transport failure propagates as a raised
exception (`Except.error`); a non-200 status returns the sentinel string;
`track_ai_usage` runs only on the success path (line 127). -/
def analyze_with_llm (findings : List Finding) (http : HttpOutcome) :
    Except RunError String × List Effect :=
  match http with
  | .transportFailure => (.error .connectionError, [.httpPost "analyze_with_llm"])
  | .response status body =>
      if status ≠ 200 then
        (.ok narrativeErrorSentinel, [.httpPost "analyze_with_llm"])
      else
        (.ok (extractContent body), [.httpPost "analyze_with_llm", .trackAI "analyze_with_llm"])

/-- The timestamp-named patch path of `generate_auto_fix` (`main.py`
line 176). -/
def patchPath (now : Nat) : String := "patches/auto_fix_" ++ toString now ++ ".diff"

/-- `generate_auto_fix` (`main.py` lines 130-185).  Empty findings return
`None` before any request; the whole request/write is inside try/except,
so a transport failure is caught (and, only there, `track_ai_usage` runs,
line 184); a non-200 status returns `None` without tracking; on success
the patch file is written and its path returned, without tracking. -/
def generate_auto_fix (findings : List Finding) (http : HttpOutcome) (now : Nat) :
    Option String × List Effect :=
  if findings.isEmpty then (none, [])
  else
    match http with
    | .transportFailure =>
        (none, [.httpPost "generate_auto_fix", .trackAI "generate_auto_fix"])
    | .response status body =>
        if status ≠ 200 then (none, [.httpPost "generate_auto_fix"])
        else (some (patchPath now), [.httpPost "generate_auto_fix", .writePatch (patchPath now)])

/-- The constant returned for zero findings (`main.py` line 191). -/
def noIssuesEffort : String := "No issues found, no effort required."

/-- `estimate_effort` (`main.py` lines 187-234).  Empty findings return the
fixed constant before any request; a transport failure is caught and (only
there) tracked, returning a sentinel; a non-200 status returns a different
sentinel untracked; success returns the model text untracked. -/
def estimate_effort (findings : List Finding) (http : HttpOutcome) :
    String × List Effect :=
  if findings.isEmpty then (noIssuesEffort, [])
  else
    match http with
    | .transportFailure =>
        ("Error while estimating effort.", [.httpPost "estimate_effort", .trackAI "estimate_effort"])
    | .response status body =>
        if status ≠ 200 then
          ("Effort estimation unavailable (error from LLM).", [.httpPost "estimate_effort"])
        else
          (extractContent body, [.httpPost "estimate_effort"])

/-- `document_findings` (`main.py` lines 260-317).  Empty findings: no-op.
Non-200 status: early return before the tracking call at line 317.
Transport failure: caught, then tracked.  Success: report section
appended, then tracked. -/
def document_findings (findings : List Finding) (http : HttpOutcome) : List Effect :=
  if findings.isEmpty then []
  else
    match http with
    | .transportFailure => [.httpPost "document_findings", .trackAI "document_findings"]
    | .response status body =>
        if status ≠ 200 then [.httpPost "document_findings"]
        else
          [.httpPost "document_findings",
           .appendReport ("\n\n---\n### Documentation for Findings\n" ++ extractContent body),
           .trackAI "document_findings"]

/-- `suggest_doc_updates` (`main.py` lines 319-369), same control shape as
`document_findings`. -/
def suggest_doc_updates (findings : List Finding) (http : HttpOutcome) : List Effect :=
  if findings.isEmpty then []
  else
    match http with
    | .transportFailure => [.httpPost "suggest_doc_updates", .trackAI "suggest_doc_updates"]
    | .response status body =>
        if status ≠ 200 then [.httpPost "suggest_doc_updates"]
        else
          [.httpPost "suggest_doc_updates",
           .appendReport ("\n\n---\n### 🪶 Suggested Documentation Updates\n" ++ extractContent body),
           .trackAI "suggest_doc_updates"]

/-- Python rendering of a possibly-`None` string in an f-string. -/
def pyShowOptStr : Option String → String
  | none => "None"
  | some s => s

/-- Python rendering of a possibly-`None` line number in an f-string. -/
def pyShowOptNat : Option Nat → String
  | none => "None"
  | some n => toString n

/-- One numbered entry of the developer-response section (`main.py` lines
244-253).  `f.get("filename", "unknown file")` and `f.get("line", "?")`
never hit their defaults because normalization always stores the keys, so
a `None` value renders as the text `None`; `f.get("message", "").strip()`
raises `AttributeError` when the stored message is `None`, modelled as the
`none` result. -/
def commentEntry (i : Nat) (f : Finding) : Option String :=
  match f.message with
  | none => none
  | some m =>
      some (toString i ++ ". **" ++ pyShowOptStr f.filename ++ ", line "
        ++ pyShowOptNat f.line ++ "** – " ++ pyStrip m
        ++ "\n   - [ ] Fixed\n   - [ ] Not applicable\n   - **Comment:** _Write your reply here..._\n\n")

/-- The entry loop of `add_comment_section`, numbering from `i`
(`enumerate(findings, start=1)` uses `i = 1`); a raised `AttributeError`
at any entry aborts the whole build, modelled as `none`. -/
def commentEntriesFrom (i : Nat) : List Finding → Option (List String)
  | [] => some []
  | f :: rest =>
      match commentEntry i f, commentEntriesFrom (i + 1) rest with
      | some e, some es => some (e :: es)
      | _, _ => none

/-- The full developer-response section text built by
`add_comment_section` before it is appended (`main.py` lines 243-253). -/
def commentSectionText (findings : List Finding) : Option String :=
  match commentEntriesFrom 1 findings with
  | none => none
  | some es => some ("\n\n---\n### Developer Responses\n" ++ String.join es)

/-- `add_comment_section` (`main.py` lines 236-258): empty findings return
without touching the report; otherwise the section is built (possibly
raising `AttributeError`) and appended. -/
def add_comment_section (findings : List Finding) : Except RunError (List Effect) :=
  if findings.isEmpty then .ok []
  else
    match commentSectionText findings with
    | none => .error .attributeError
    | some s => .ok [.appendReport s]

/-- Early returns of STEP 1 of `main` (`main.py` lines 391-404): a missing
single-file target, or incremental mode with no changed files.  Both print
a message and return without touching analyzers, the model service or the
report. -/
inductive EarlyExit where
  | fileNotFound
  | noChangedFiles
deriving DecidableEq

/-- Exit condition of one `main` invocation. -/
inductive ExitStatus where
  | early (e : EarlyExit)
  | crashed (err : RunError)
  | completed
deriving DecidableEq

/-- The external environment of one run: filesystem existence, directory
resolution (`pathlib.Path(p).parent`), per-directory analyzer outputs
after JSON parsing (a parse failure is already the empty result, per
`run_ruff` and `run_bandit`), the file lists the two non-single-file modes
would obtain, one HTTP outcome per model-service call, and the patch
timestamp. -/
structure World where
  fsEx : String → Bool
  parent : String → String
  ruffOut : String → List RuffItem
  banditOut : String → Option (List BanditIssue)
  fullFiles : List String
  changedFiles : List String
  httpNarrative : HttpOutcome
  httpAutoFix : HttpOutcome
  httpEffort : HttpOutcome
  httpDoc : HttpOutcome
  httpSuggest : HttpOutcome
  now : Nat

/-- Python truthiness of the optional `file_target` argument. -/
def truthy : Option String → Bool
  | none => false
  | some s => s != ""

/-- The guard of the single-file branch:
`mode in ("file", "file_specific") and file_target`. -/
def singleFileRequested (mode : String) (target : Option String) : Bool :=
  (mode == "file" || mode == "file_specific") && truthy target

/-- STEP 1 of `main` (`main.py` lines 390-408): decide the files to
analyze or exit early.  Any mode string other than the single-file pair
and `"incremental"` falls through to the full scan. -/
def selectFiles (mode : String) (target : Option String) (w : World) :
    Except EarlyExit (List String) :=
  if singleFileRequested mode target then
    if w.fsEx (target.getD "") then .ok [target.getD ""] else .error .fileNotFound
  else if mode == "incremental" then
    if w.changedFiles.isEmpty then .error .noChangedFiles else .ok w.changedFiles
  else
    .ok w.fullFiles

/-- STEP 2 of `main` (`main.py` lines 411-424): the per-file loop, folding
up ruff results, bandit results and the analyzer/timing effects in file
order. -/
def runAnalyzers (w : World) (files : List String) :
    List RuffItem × List BanditIssue × List Effect :=
  files.foldl
    (fun acc f =>
      let d := w.parent f
      (acc.1 ++ w.ruffOut d,
       acc.2.1 ++ (w.banditOut d).getD [],
       acc.2.2 ++ [.runTool "ruff" d, .perf "Ruff", .runTool "bandit" d, .perf "Bandit"]))
    ([], [], [])

/-- The aggregated findings list a run over `files` produces (STEP 2 then
STEP 3 of `main`). -/
def mainFindings (w : World) (files : List String) : List Finding :=
  let ra := runAnalyzers w files
  gatherFindings ra.1 ra.2.1 (check_architecture_structure w.fsEx)

/-- The static guideline boilerplate appended after STEP 9
(`main.py` lines 485-488). -/
def guidelineBoilerplate : String :=
  "\n\n---\n### Coding Guideline Awareness\nThis review follows **PEP8** and **Google Python Style Guide** recommendations as enforced by Ruff.\n"

/-- Discriminate AI-usage tracking effects. -/
def Effect.isTrackAI : Effect → Bool
  | .trackAI _ => true
  | _ => false

/-- The conditional AI-cost section (`main.py` lines 504-513): appended
only when `ai_usage_log` is non-empty, i.e. when any tracking effect
occurred during the run. -/
def aiCostSection (effs : List Effect) : List Effect :=
  if effs.any Effect.isTrackAI then [.appendReport "### AI Cost Management"] else []

/-- Result of one `main` invocation: how it ended and the ordered effect
trace it produced. -/
structure RunResult where
  exit : ExitStatus
  effects : List Effect
deriving DecidableEq

/-- `main` (`main.py` lines 383-517), over an explicit `World`.  Durations
are abstracted: `timed_section` contributes only its ordered
`performance_stats` label (recorded after the stage returns, so a stage
that raises records nothing).  The two crash points are the unguarded HTTP
post of `analyze_with_llm` and the `AttributeError` of
`add_comment_section`; every other stage is total. -/
def main (mode : String) (target : Option String) (w : World) : RunResult :=
  match selectFiles mode target w with
  | .error e => { exit := .early e, effects := [] }
  | .ok files =>
      let ra := runAnalyzers w files
      let findings := gatherFindings ra.1 ra.2.1 (check_architecture_structure w.fsEx)
      let effs2 := ra.2.2
      match analyze_with_llm findings w.httpNarrative with
      | (.error err, e4) => { exit := .crashed err, effects := effs2 ++ e4 }
      | (.ok review, e4) =>
          let e5 := [Effect.perf "AI Review", Effect.overwriteReport review]
          let gaf := generate_auto_fix findings w.httpAutoFix w.now
          let e6 := gaf.2 ++ [Effect.perf "Auto Fix"]
          let ee := estimate_effort findings w.httpEffort
          let e7 := ee.2 ++ [Effect.perf "Effort Estimation",
                             Effect.appendReport ("\n\n---\n### Effort Estimation\n" ++ ee.1)]
          match add_comment_section findings with
          | .error err =>
              { exit := .crashed err, effects := effs2 ++ e4 ++ e5 ++ e6 ++ e7 }
          | .ok e8 =>
              let e9 := document_findings findings w.httpDoc
                ++ [Effect.perf "Document Findings", Effect.appendReport guidelineBoilerplate]
              let e10 := suggest_doc_updates findings w.httpSuggest ++ [Effect.perf "Doc Updates"]
              let e11 := [Effect.appendReport "### Performance Summary"]
              let all := effs2 ++ e4 ++ e5 ++ e6 ++ e7 ++ e8 ++ e9 ++ e10 ++ e11
              { exit := .completed, effects := all ++ aiCostSection all }

/-- The per-file ruff output blocks, concatenated in file-processing
order. -/
def ruffOfFiles (w : World) (files : List String) : List RuffItem :=
  (files.map fun f => w.ruffOut (w.parent f)).flatten

/-- The per-file bandit result blocks, concatenated in file-processing
order. -/
def banditOfFiles (w : World) (files : List String) : List BanditIssue :=
  (files.map fun f => (w.banditOut (w.parent f)).getD []).flatten

/-- The analyzer invocation/timing trace of STEP 2 in file order. -/
def analyzerEffects (w : World) (files : List String) : List Effect :=
  (files.map fun f =>
    [Effect.runTool "ruff" (w.parent f), Effect.perf "Ruff",
     Effect.runTool "bandit" (w.parent f), Effect.perf "Bandit"]).flatten

theorem runAnalyzers_go (w : World) (files : List String) :
    ∀ ar ab ae,
      files.foldl
        (fun acc f =>
          let d := w.parent f
          (acc.1 ++ w.ruffOut d,
           acc.2.1 ++ (w.banditOut d).getD [],
           acc.2.2 ++ [.runTool "ruff" d, .perf "Ruff", .runTool "bandit" d, .perf "Bandit"]))
        (ar, ab, ae)
      = (ar ++ ruffOfFiles w files, ab ++ banditOfFiles w files, ae ++ analyzerEffects w files) := by
  induction files with
  | nil => intro ar ab ae; simp [ruffOfFiles, banditOfFiles, analyzerEffects]
  | cons f fs ih =>
      intro ar ab ae
      rw [List.foldl_cons]
      dsimp only
      rw [ih]
      simp [ruffOfFiles, banditOfFiles, analyzerEffects]

/-- The STEP 2 fold decomposes into per-file concatenations. -/
theorem runAnalyzers_eq (w : World) (files : List String) :
    runAnalyzers w files
      = (ruffOfFiles w files, banditOfFiles w files, analyzerEffects w files) := by
  unfold runAnalyzers
  rw [runAnalyzers_go]
  simp

/-- State of the custom rule store file `rules/custom_rules.json` as
`load_custom_rules` observes it: absent, present with valid JSON (the
parsed value, of which the program only ever uses the rule texts), or
present with content `json.load` rejects. -/
inductive StoreState where
  | absent
  | malformed (raw : String)
  | wellFormed (rules : List String)
deriving DecidableEq

/-- `load_custom_rules` (`main.py` lines 19-24): a missing file returns the
empty record; an existing file is handed to `json.load` with NO exception
handler, so unparseable content raises `json.JSONDecodeError`, which
propagates out of the module-level initializer at line 78 and kills the
process. -/
def load_custom_rules : StoreState → Except RunError (List String)
  | .absent => .ok []
  | .malformed _ => .error .jsonDecodeError
  | .wellFormed rules => .ok rules

theorem commentEntriesFrom_length : ∀ (fs : List Finding) (i : Nat),
    (∀ f ∈ fs, f.message ≠ none) →
    (commentEntriesFrom i fs).map List.length = some fs.length := by
  intro fs
  induction fs with
  | nil => intro i h; rfl
  | cons f rest ih =>
      intro i h
      have hrest := ih (i + 1) fun g hg => h g (List.mem_cons_of_mem _ hg)
      cases hq : f.message with
      | none => exact absurd hq (h f (List.mem_cons_self _ _))
      | some m =>
          cases hr : commentEntriesFrom (i + 1) rest with
          | none => rw [hr] at hrest; exact absurd hrest (by simp)
          | some es =>
              rw [hr, Option.map_some', Option.some_inj] at hrest
              simp [commentEntriesFrom, commentEntry, hq, hr]
              omega

theorem commentSectionText_some (fs : List Finding)
    (h : ∀ f ∈ fs, f.message ≠ none) :
    ∃ s, commentSectionText fs = some s := by
  have hlen := commentEntriesFrom_length fs 1 h
  cases hr : commentEntriesFrom 1 fs with
  | none => rw [hr] at hlen; exact absurd hlen (by simp)
  | some es =>
      exact ⟨"\n\n---\n### Developer Responses\n" ++ String.join es, by
        unfold commentSectionText
        rw [hr]⟩

theorem add_comment_section_ok (fs : List Finding)
    (h : ∀ f ∈ fs, f.message ≠ none) :
    ∃ e8, add_comment_section fs = .ok e8 := by
  obtain ⟨s, hs⟩ := commentSectionText_some fs h
  unfold add_comment_section
  by_cases hE : fs.isEmpty
  · exact ⟨[], by simp [hE]⟩
  · exact ⟨[.appendReport s], by simp [hE, hs]⟩

theorem mainFindings_length_pos (w : World) (files : List String) :
    0 < (mainFindings w files).length := by
  unfold mainFindings
  rw [gatherFindings_eq]
  have h1 : (normalizeArch (check_architecture_structure w.fsEx)).length = 1 := by
    simp [normalizeArch, check_architecture_structure_length]
  simp [List.length_append, h1]

theorem mainFindings_ne_nil (w : World) (files : List String) :
    mainFindings w files ≠ [] := by
  have := mainFindings_length_pos w files
  intro h
  rw [h] at this
  exact absurd this (by simp)

/-- Once STEP 1 selects files, the run reaches completion exactly when the
narrative call returns (instead of raising) and the developer-response
section builds without an AttributeError. -/
theorem main_completed (mode : String) (target : Option String) (w : World)
    (files : List String)
    (hsel : selectFiles mode target w = .ok files)
    (review : String) (e4 : List Effect)
    (hana : analyze_with_llm (mainFindings w files) w.httpNarrative = (.ok review, e4))
    (e8 : List Effect)
    (hacs : add_comment_section (mainFindings w files) = .ok e8) :
    (main mode target w).exit = .completed := by
  unfold main
  rw [hsel]
  dsimp only
  rw [show (gatherFindings (runAnalyzers w files).1 (runAnalyzers w files).2.1
        (check_architecture_structure w.fsEx)) = mainFindings w files from rfl]
  rw [hana]
  dsimp only
  rw [hacs]

/-- A success body whose `message.content` is `s`. -/
def okBody (s : String) : ChatBody := { message := some { content := some s } }

/-- A response body with no `message` field. -/
def emptyChatBody : ChatBody := { message := none }

/-- A baseline environment: nothing on disk, no analyzer output, all five
model-service calls succeed. -/
def baseWorld : World :=
  { fsEx := fun _ => false
    parent := fun s => s
    ruffOut := fun _ => []
    banditOut := fun _ => none
    fullFiles := []
    changedFiles := []
    httpNarrative := .response 200 (okBody "Overall quality is fine.")
    httpAutoFix := .response 200 (okBody "--- a.py\n+++ b.py\n")
    httpEffort := .response 200 (okBody "Effort estimation: Low (~1 hours of developer work)")
    httpDoc := .response 200 (okBody "Docs.")
    httpSuggest := .response 200 (okBody "Update README.")
    now := 0 }

/-- Environment whose model service is unreachable during the narrative
stage. -/
def offlineWorld : World :=
  { baseWorld with fsEx := fun _ => true, httpNarrative := .transportFailure }

/-- Environment whose narrative call returns HTTP 500 and whose four
guarded model-service calls all suffer transport failures. -/
def degradedWorld : World :=
  { baseWorld with
    fsEx := fun _ => true
    httpNarrative := .response 500 emptyChatBody
    httpAutoFix := .transportFailure
    httpEffort := .transportFailure
    httpDoc := .transportFailure
    httpSuggest := .transportFailure }

/-- Environment where every call succeeds and all project directories
exist. -/
def successWorld : World := { baseWorld with fsEx := fun _ => true }

/-- Claim C1 counterexample: the narrative call (`analyze_with_llm`) wraps
its HTTP post in no try/except, so a transport failure raises instead of
returning a sentinel, and the pipeline run crashes rather than continuing
in degraded mode. -/
theorem C1_counterexample :
    (main "full" none offlineWorld).exit = .crashed .connectionError
    ∧ (analyze_with_llm (mainFindings offlineWorld offlineWorld.fullFiles) .transportFailure).1
        = .error .connectionError :=
  ⟨rfl, rfl⟩

/-- Claim C1 (amended): auto-fix, effort estimate and the two
documentation calls return their failure sentinels (None, error string,
no-op with the report section omitted) on transport failure and on a
non-success status; the narrative call returns its error-string sentinel
on a non-success status; in every such degraded world - the narrative
call returning any HTTP response at all, the other four calls failing in
any combination - the run still continues to completion; but a transport
failure during the narrative call raises and aborts the run. -/
theorem C1_amended :
    (∀ (fs : List Finding) (now : Nat), (generate_auto_fix fs .transportFailure now).1 = none)
    ∧ (∀ fs : List Finding, fs ≠ [] →
        (estimate_effort fs .transportFailure).1 = "Error while estimating effort.")
    ∧ (∀ fs : List Finding,
        document_findings fs .transportFailure
          = if fs.isEmpty then ([] : List Effect)
            else [Effect.httpPost "document_findings", Effect.trackAI "document_findings"])
    ∧ (∀ fs : List Finding,
        suggest_doc_updates fs .transportFailure
          = if fs.isEmpty then ([] : List Effect)
            else [Effect.httpPost "suggest_doc_updates", Effect.trackAI "suggest_doc_updates"])
    ∧ (∀ (fs : List Finding) (s : Nat) (b : ChatBody), s ≠ 200 →
        (analyze_with_llm fs (.response s b)).1 = .ok narrativeErrorSentinel)
    ∧ (∀ (fs : List Finding) (s : Nat) (b : ChatBody) (now : Nat), s ≠ 200 →
        (generate_auto_fix fs (.response s b) now).1 = none)
    ∧ (∀ (fs : List Finding) (s : Nat) (b : ChatBody), fs ≠ [] → s ≠ 200 →
        (estimate_effort fs (.response s b)).1 = "Effort estimation unavailable (error from LLM).")
    ∧ (∀ (fs : List Finding) (s : Nat) (b : ChatBody), s ≠ 200 →
        document_findings fs (.response s b)
          = if fs.isEmpty then ([] : List Effect) else [Effect.httpPost "document_findings"])
    ∧ (∀ (fs : List Finding) (s : Nat) (b : ChatBody), s ≠ 200 →
        suggest_doc_updates fs (.response s b)
          = if fs.isEmpty then ([] : List Effect) else [Effect.httpPost "suggest_doc_updates"])
    ∧ (∀ (w : World) (s : Nat) (b : ChatBody), w.httpNarrative = .response s b →
        (∀ f ∈ mainFindings w w.fullFiles, f.message ≠ none) →
        (main "full" none w).exit = .completed) := by
  refine ⟨?_, ?_, ?_, ?_, ?_, ?_, ?_, ?_, ?_, ?_⟩
  · intro fs now
    unfold generate_auto_fix
    split
    · rfl
    · rfl
  · intro fs hne
    unfold estimate_effort
    rw [if_neg (by simp [hne])]
  · intro fs
    unfold document_findings
    split
    · rfl
    · rfl
  · intro fs
    unfold suggest_doc_updates
    split
    · rfl
    · rfl
  · intro fs s b hs
    unfold analyze_with_llm
    dsimp only
    rw [if_pos hs]
  · intro fs s b now hs
    unfold generate_auto_fix
    split
    · rfl
    · dsimp only
      rw [if_pos hs]
  · intro fs s b hne hs
    unfold estimate_effort
    rw [if_neg (by simp [hne])]
    dsimp only
    rw [if_pos hs]
  · intro fs s b hs
    unfold document_findings
    split
    · rfl
    · dsimp only
      rw [if_pos hs]
  · intro fs s b hs
    unfold suggest_doc_updates
    split
    · rfl
    · dsimp only
      rw [if_pos hs]
  · intro w s b hN hmsg
    have hsel : selectFiles "full" none w = .ok w.fullFiles := rfl
    have hana : ∃ review e4,
        analyze_with_llm (mainFindings w w.fullFiles) w.httpNarrative = (.ok review, e4) := by
      rw [hN]
      unfold analyze_with_llm
      dsimp only
      split
      · exact ⟨_, _, rfl⟩
      · exact ⟨_, _, rfl⟩
    obtain ⟨review, e4, hana⟩ := hana
    obtain ⟨e8, hacs⟩ := add_comment_section_ok _ hmsg
    exact main_completed "full" none w w.fullFiles hsel review e4 hana e8 hacs

/-- Witness for C1 (amended), at concrete inputs: one architecture
finding, status 500, transport failures, and a full run against
`degradedWorld`, where the narrative call gets HTTP 500 and all four
guarded calls suffer transport failures. -/
theorem C1_witness :
    (generate_auto_fix [archFindingOf "note"] .transportFailure 0).1 = none
    ∧ (estimate_effort [archFindingOf "note"] .transportFailure).1
        = "Error while estimating effort."
    ∧ (document_findings [archFindingOf "note"] .transportFailure
        = if ([archFindingOf "note"] : List Finding).isEmpty then ([] : List Effect)
          else [Effect.httpPost "document_findings", Effect.trackAI "document_findings"])
    ∧ (suggest_doc_updates [archFindingOf "note"] .transportFailure
        = if ([archFindingOf "note"] : List Finding).isEmpty then ([] : List Effect)
          else [Effect.httpPost "suggest_doc_updates", Effect.trackAI "suggest_doc_updates"])
    ∧ (analyze_with_llm [archFindingOf "note"] (.response 500 emptyChatBody)).1
        = .ok narrativeErrorSentinel
    ∧ (generate_auto_fix [archFindingOf "note"] (.response 500 emptyChatBody) 0).1 = none
    ∧ (estimate_effort [archFindingOf "note"] (.response 500 emptyChatBody)).1
        = "Effort estimation unavailable (error from LLM)."
    ∧ (document_findings [archFindingOf "note"] (.response 500 emptyChatBody)
        = if ([archFindingOf "note"] : List Finding).isEmpty then ([] : List Effect)
          else [Effect.httpPost "document_findings"])
    ∧ (suggest_doc_updates [archFindingOf "note"] (.response 500 emptyChatBody)
        = if ([archFindingOf "note"] : List Finding).isEmpty then ([] : List Effect)
          else [Effect.httpPost "suggest_doc_updates"])
    ∧ (main "full" none degradedWorld).exit = .completed := by
  obtain ⟨h1, h2, h3, h4, h5, h6, h7, h8, h9, h10⟩ := C1_amended
  exact ⟨h1 _ 0, h2 _ (by decide), h3 _, h4 _, h5 _ 500 _ (by decide), h6 _ 500 _ 0 (by decide),
    h7 _ 500 _ (by decide) (by decide), h8 _ 500 _ (by decide), h9 _ 500 _ (by decide),
    h10 degradedWorld 500 emptyChatBody rfl (by decide)⟩

/-- Claim C2: the aggregated findings list is always the Analyzer-A (ruff)
findings in file-processing order, then the Analyzer-B (bandit) findings,
then the architecture notes, each segment carrying its tool id, regardless
of the raw outputs. -/
theorem C2_aggregation_order (w : World) (files : List String)
    (ruffItems : List RuffItem) (banditIssues : List BanditIssue) (archNotes : List String) :
    mainFindings w files
      = normalizeRuff (ruffOfFiles w files) ++ normalizeBandit (banditOfFiles w files)
        ++ normalizeArch (check_architecture_structure w.fsEx)
    ∧ gatherFindings ruffItems banditIssues archNotes
      = normalizeRuff ruffItems ++ normalizeBandit banditIssues ++ normalizeArch archNotes
    ∧ (normalizeRuff ruffItems).all (fun f => f.tool == "ruff") = true
    ∧ (normalizeBandit banditIssues).all (fun f => f.tool == "bandit") = true
    ∧ (normalizeArch archNotes).all (fun f => f.tool == "architecture") = true := by
  refine ⟨?_, gatherFindings_eq _ _ _, ?_, ?_, ?_⟩
  · unfold mainFindings
    rw [runAnalyzers_eq]
    exact gatherFindings_eq _ _ _
  · rw [List.all_eq_true]
    intro f hf
    simp only [normalizeRuff, List.mem_flatten, List.mem_map] at hf
    obtain ⟨l, ⟨item, hitem, hl⟩, hfl⟩ := hf
    rw [← hl] at hfl
    obtain ⟨msg, hmsg, hfm⟩ := List.mem_map.mp hfl
    rw [← hfm]
    rfl
  · rw [List.all_eq_true]
    intro f hf
    obtain ⟨issue, hissue, hfi⟩ := List.mem_map.mp hf
    rw [← hfi]
    rfl
  · rw [List.all_eq_true]
    intro f hf
    obtain ⟨note, hnote, hfn⟩ := List.mem_map.mp hf
    rw [← hfn]
    rfl

/-- Claim C4: in single-file mode with a non-existent target, the run
exits at STEP 1 with the file-not-found early exit and an empty effect
trace: no analyzer subprocess, no model-service call, no report write. -/
theorem C4_input_error (w : World) (t : String) (h1 : t ≠ "") (h2 : w.fsEx t = false) :
    main "file" (some t) w = { exit := .early .fileNotFound, effects := [] } := by
  have hsel : selectFiles "file" (some t) w = .error .fileNotFound := by
    unfold selectFiles singleFileRequested truthy
    simp [h2, bne_iff_ne, h1]
  unfold main
  rw [hsel]

/-- Witness for C4 at the concrete target `missing.py` in `baseWorld`. -/
theorem C4_witness :
    ("missing.py" : String) ≠ ""
    ∧ baseWorld.fsEx "missing.py" = false
    ∧ main "file" (some "missing.py") baseWorld = { exit := .early .fileNotFound, effects := [] } :=
  ⟨by decide, rfl, C4_input_error baseWorld "missing.py" (by decide) rfl⟩

/-- Raw ruff output of the C3 scenario: two findings for one file. -/
def scenarioRuff : List RuffItem :=
  [{ filename := some "sample/app.py"
     messages :=
       [{ message := some "unused import os", location := some { row := some 1 } },
        { message := some "line too long (120 > 88)", location := some { row := some 2 } }] }]

/-- Raw bandit output of the C3 scenario: one finding for the same file. -/
def scenarioBandit : List BanditIssue :=
  [{ filename := some "sample/app.py"
     issue_text := some "Use of insecure eval detected."
     line_number := some 10 }]

/-- Environment of the C3 scenario: one target file, 2 ruff findings,
1 bandit finding, all project directories present. -/
def scenarioWorld : World :=
  { baseWorld with
    fsEx := fun _ => true
    ruffOut := fun _ => scenarioRuff
    banditOut := fun _ => some scenarioBandit }

/-- The aggregated findings list of the C3 scenario run. -/
def scenarioFindings : List Finding := mainFindings scenarioWorld ["sample/app.py"]

/-- Claim C3 counterexample: in the 2-ruff + 1-bandit scenario the
aggregation also appends the always-present architecture note, so the
aggregated list has 4 findings and the developer-response section has 4
numbered entries, not exactly 3. -/
theorem C3_counterexample :
    scenarioFindings.length = 4
    ∧ (commentEntriesFrom 1 scenarioFindings).map List.length = some 4 := by
  constructor
  · rfl
  · rfl

/-- Claim C3 (amended): the developer-response section contains one
numbered entry per aggregated finding, in aggregation order, each with the
file, line, message, two unchecked checkboxes and the comment placeholder;
in the 2-ruff + 1-bandit scenario the aggregated list additionally carries
the architecture note, so the section has exactly 4 entries: the 2 ruff
findings, the bandit finding, then the architecture note. -/
theorem C3_amended :
    (∀ (fs : List Finding) (i : Nat), (∀ f ∈ fs, f.message ≠ none) →
        (commentEntriesFrom i fs).map List.length = some fs.length)
    ∧ commentSectionText scenarioFindings = some (
        "\n\n---\n### Developer Responses\n"
        ++ "1. **sample/app.py, line 1** – unused import os\n   - [ ] Fixed\n   - [ ] Not applicable\n   - **Comment:** _Write your reply here..._\n\n"
        ++ "2. **sample/app.py, line 2** – line too long (120 > 88)\n   - [ ] Fixed\n   - [ ] Not applicable\n   - **Comment:** _Write your reply here..._\n\n"
        ++ "3. **sample/app.py, line 10** – Use of insecure eval detected.\n   - [ ] Fixed\n   - [ ] Not applicable\n   - **Comment:** _Write your reply here..._\n\n"
        ++ "4. **project, line 0** – Project structure follows modular architecture.\n   - [ ] Fixed\n   - [ ] Not applicable\n   - **Comment:** _Write your reply here..._\n\n") := by
  refine ⟨fun fs i h => commentEntriesFrom_length fs i h, ?_⟩
  rfl

/-- Witness for C3 (amended), at the scenario findings list. -/
theorem C3_witness :
    (commentEntriesFrom 1 scenarioFindings).map List.length = some scenarioFindings.length :=
  C3_amended.1 scenarioFindings 1 (by decide)

/-- Claim C5 counterexample: `load_custom_rules` has no exception handler,
so a malformed (non-JSON) store file raises a JSON decode error instead of
degrading to an empty rule set. -/
theorem C5_counterexample :
    load_custom_rules (.malformed "this is not valid json") = .error .jsonDecodeError := rfl

/-- Claim C5 (amended): an absent store file degrades to the empty rule
set and a well-formed file loads its rules, but a malformed store file
raises `json.JSONDecodeError` out of the module-level initializer and
fails the run. -/
theorem C5_amended :
    load_custom_rules .absent = .ok []
    ∧ (∀ rules : List String, load_custom_rules (.wellFormed rules) = .ok rules)
    ∧ (∀ raw : String, load_custom_rules (.malformed raw) = .error .jsonDecodeError) :=
  ⟨rfl, fun _ => rfl, fun _ => rfl⟩

/-- Claim C6: with zero findings, `estimate_effort` returns exactly the
fixed constant with an empty effect trace (no HTTP call), and
`generate_auto_fix` returns `None` with an empty effect trace (no HTTP
call, no patch file written). -/
theorem C6_empty_findings (http : HttpOutcome) (now : Nat) :
    estimate_effort [] http = ("No issues found, no effort required.", [])
    ∧ generate_auto_fix [] http now = (none, []) :=
  ⟨rfl, rfl⟩

/-- Claim C7 counterexample: a ruff record and a bandit record with every
field missing normalize to findings whose filename, message and line are
all the absent marker `none` - no "unknown" string is substituted during
normalization (the lookup defaults at later display sites never fire
because the keys are always stored). -/
theorem C7_counterexample :
    gatherFindings [{ filename := none, messages := [{ message := none, location := none }] }]
        [{ filename := none, issue_text := none, line_number := none }] []
      = [{ tool := "ruff", filename := none, message := none, line := none },
         { tool := "bandit", filename := none, message := none, line := none }] := rfl

/-- Claim C7 (amended): normalization copies each raw field verbatim into
the common shape; a missing filename, message or location/line field
becomes the absent marker `none` - for all three fields alike, with no
"unknown" default substituted. -/
theorem C7_amended (fn ms : Option String) (loc : Option RuffLocation)
    (bfn bit : Option String) (bln : Option Nat) :
    gatherFindings [{ filename := fn, messages := [{ message := ms, location := loc }] }]
        [{ filename := bfn, issue_text := bit, line_number := bln }] []
      = [{ tool := "ruff", filename := fn, message := ms,
           line := (loc.getD { row := none }).row },
         { tool := "bandit", filename := bfn, message := bit, line := bln }] := rfl

/-- Claim C8 counterexample: with all three expected directories missing,
the structural check emits a single combined note naming them all, not one
Finding per missing directory. -/
theorem C8_counterexample :
    check_architecture_structure (fun _ => false)
      = ["Missing expected module directories: orchestrator, sample, reports"]
    ∧ (check_architecture_structure (fun _ => false)).length = 1 := by
  constructor
  · rfl
  · rfl

/-- Claim C8 (amended): the structural check always emits exactly one
note - a single combined note naming all missing directories when any are
missing, or the confirming note when all are present; its findings carry
the distinct tool id "architecture" and are placed last in the aggregated
list. -/
theorem C8_amended (fsEx : String → Bool) (ruffItems : List RuffItem)
    (banditIssues : List BanditIssue) :
    (check_architecture_structure fsEx).length = 1
    ∧ (required_dirs.filter (fun d => !fsEx d) ≠ [] →
        check_architecture_structure fsEx
          = ["Missing expected module directories: "
              ++ String.intercalate ", " (required_dirs.filter (fun d => !fsEx d))])
    ∧ (required_dirs.filter (fun d => !fsEx d) = [] →
        check_architecture_structure fsEx = ["Project structure follows modular architecture."])
    ∧ (normalizeArch (check_architecture_structure fsEx)).all
        (fun f => f.tool == "architecture") = true
    ∧ gatherFindings ruffItems banditIssues (check_architecture_structure fsEx)
      = normalizeRuff ruffItems ++ normalizeBandit banditIssues
        ++ normalizeArch (check_architecture_structure fsEx) := by
  refine ⟨check_architecture_structure_length fsEx, ?_, ?_, ?_, gatherFindings_eq _ _ _⟩
  · intro h
    unfold check_architecture_structure
    rw [if_pos h]
  · intro h
    unfold check_architecture_structure
    rw [if_neg (by simp [h])]
  · rw [List.all_eq_true]
    intro f hf
    obtain ⟨note, hnote, hfn⟩ := List.mem_map.mp hf
    rw [← hfn]
    rfl

/-- Witness for C8 (amended), at the all-missing and all-present
filesystems. -/
theorem C8_witness :
    (check_architecture_structure (fun _ => false)).length = 1
    ∧ check_architecture_structure (fun _ => false)
      = ["Missing expected module directories: "
          ++ String.intercalate ", " (required_dirs.filter (fun d => !(fun _ => false) d))]
    ∧ check_architecture_structure (fun _ => true)
      = ["Project structure follows modular architecture."] := by
  obtain ⟨h1, h2, _, _, _⟩ := C8_amended (fun _ => false) [] []
  obtain ⟨_, _, h3, _, _⟩ := C8_amended (fun _ => true) [] []
  exact ⟨h1, h2 (by decide), h3 (by decide)⟩

/-- Claim C9 is a code bug: on every success path and on every non-success
status path of `generate_auto_fix` and `estimate_effort` (and on the
non-success path of the other calls), `track_ai_usage` is never reached -
it sits only in the exception handler for those two, and only on the
success path for `analyze_with_llm` - so the AI-usage log stays empty
while the general stage-timing log records the stage. -/
theorem C9_divergence :
    (estimate_effort [archFindingOf "note"] (.response 200 (okBody "Low"))).2
      = [.httpPost "estimate_effort"]
    ∧ (generate_auto_fix [archFindingOf "note"] (.response 200 (okBody "patch")) 5).2
      = [.httpPost "generate_auto_fix", .writePatch (patchPath 5)]
    ∧ (analyze_with_llm [archFindingOf "note"] (.response 500 emptyChatBody)).2
      = [.httpPost "analyze_with_llm"]
    ∧ Effect.perf "Effort Estimation" ∈ (main "full" none successWorld).effects
    ∧ Effect.trackAI "estimate_effort" ∉ (main "full" none successWorld).effects
    ∧ Effect.perf "Auto Fix" ∈ (main "full" none successWorld).effects
    ∧ Effect.trackAI "generate_auto_fix" ∉ (main "full" none successWorld).effects := by
  refine ⟨rfl, rfl, rfl, ?_, ?_, ?_, ?_⟩ <;> decide

/-- Claim C10: the structural check always returns exactly one note, so
the aggregated findings list of any run that reaches aggregation is
non-empty, and the empty-findings branches of `estimate_effort`,
`generate_auto_fix` and `add_comment_section` (recognizable as the only
branches that produce no effect at all) cannot be taken on it. -/
theorem C10_arch_note_always_present :
    (∀ fsEx : String → Bool, (check_architecture_structure fsEx).length = 1)
    ∧ (∀ (w : World) (files : List String), mainFindings w files ≠ [])
    ∧ (∀ (fs : List Finding) (http : HttpOutcome), fs ≠ [] → (estimate_effort fs http).2 ≠ [])
    ∧ (∀ (fs : List Finding) (http : HttpOutcome) (now : Nat), fs ≠ [] →
        (generate_auto_fix fs http now).2 ≠ [])
    ∧ (∀ fs : List Finding, fs ≠ [] → add_comment_section fs ≠ .ok []) := by
  refine ⟨check_architecture_structure_length, mainFindings_ne_nil, ?_, ?_, ?_⟩
  · intro fs http hne
    unfold estimate_effort
    rw [if_neg (by simp [hne])]
    cases http with
    | transportFailure => simp
    | response s b =>
        dsimp only
        split <;> simp
  · intro fs http now hne
    unfold generate_auto_fix
    rw [if_neg (by simp [hne])]
    cases http with
    | transportFailure => simp
    | response s b =>
        dsimp only
        split <;> simp
  · intro fs hne
    unfold add_comment_section
    rw [if_neg (by simp [hne])]
    cases hq : commentSectionText fs with
    | none => simp
    | some s => simp

/-- Witness for C10, at a singleton findings list and the baseline
world. -/
theorem C10_witness :
    (check_architecture_structure baseWorld.fsEx).length = 1
    ∧ mainFindings baseWorld [] ≠ []
    ∧ (estimate_effort [archFindingOf "note"] .transportFailure).2 ≠ []
    ∧ (generate_auto_fix [archFindingOf "note"] .transportFailure 0).2 ≠ []
    ∧ add_comment_section [archFindingOf "note"] ≠ .ok [] := by
  obtain ⟨h1, h2, h3, h4, h5⟩ := C10_arch_note_always_present
  exact ⟨h1 _, h2 _ _, h3 _ _ (by decide), h4 _ _ 0 (by decide), h5 _ (by decide)⟩

end Orchestrator
